import Mathlib

/-!
Verification of the Dungeness River monitor core logic
(`src/dungeness_monitor.py`): the flow classifier `get_flow_status`
and the gauge geometry computed in `generate_html`.

Python floats are modelled as `Option ℚ`: `none` stands for NaN (every
comparison involving it is false, as in IEEE/Python), `some q` for a
finite value. The renderer geometry is extracted from `generate_html`
exactly as computed there: segment widths, the two triangle-marker
percentages, the guarded range span, and the upper-bound label.
-/

namespace Dungeness

/-- A Python float as seen by the comparisons in the source: `none`
models NaN, `some q` a finite value modelled as a rational. -/
abbrev FloatV : Type := Option ℚ

/-- Python `a <= b` on floats: false whenever either side is NaN. -/
def fle : FloatV → FloatV → Bool
  | some a, some b => decide (a ≤ b)
  | _, _ => false

/-- Python `a < b` on floats: false whenever either side is NaN. -/
def flt : FloatV → FloatV → Bool
  | some a, some b => decide (a < b)
  | _, _ => false

/-- The status dictionary built by `get_flow_status`. -/
structure Status where
  bg_color : String
  text : String
  blink : Bool
  range_min : ℚ
  range_max : ℚ
deriving DecidableEq, Repr

/-- The initial fallback status from line 21 of the source. -/
def unknown_status : Status :=
  ⟨"white", "Unknown Flow", false, 0, 100⟩

/-- `get_flow_status` from the source: the ordered conditional chain.
Python's chained comparison `a <= flow <= b` is `(a <= flow) and
(flow <= b)`. -/
def get_flow_status (flow : FloatV) : Status :=
  if fle (some 0) flow && fle flow (some 62.5) then
    ⟨"#FF0000", "Extremely Low- Salmon Endangered", true, 0, 62.5⟩
  else if flt (some 62.5) flow && fle flow (some 120) then
    ⟨"#FFBF00", "Critically Low- Withdrawals Reduced", false, 62.5, 120⟩
  else if flt (some 120) flow && fle flow (some 238) then
    ⟨"#FFFF00", "Low Flow - Conserve", false, 120, 238⟩
  else if flt (some 238) flow && fle flow (some 582) then
    ⟨"#0099FF", "Adequate Flow", false, 238, 582⟩
  else if flt (some 582) flow && fle flow (some 2700) then
    ⟨"#800080", "High Flow", false, 582, 2700⟩
  else if flt (some 2700) flow && fle flow (some 4275) then
    ⟨"#FFBF00", "Flood Alert", false, 2700, 4275⟩
  else if flt (some 4275) flow && fle flow (some 6200) then
    ⟨"#FF0000", "Minor to Moderate Flood -Take Precautions", false, 4275, 6200⟩
  else if flt (some 6200) flow then
    ⟨"#8B0000", "Extreme Flooding – Evacuation May Be Necessary", true, 6200, 99999⟩
  else
    unknown_status

/-- The eight guard conditions of the chain, in source order (entry 0
is `0 <= flow <= 62.5`, entry 7 is `flow > 6200`). -/
def band_conds (flow : FloatV) : List Bool :=
  [fle (some 0) flow && fle flow (some 62.5),
   flt (some 62.5) flow && fle flow (some 120),
   flt (some 120) flow && fle flow (some 238),
   flt (some 238) flow && fle flow (some 582),
   flt (some 582) flow && fle flow (some 2700),
   flt (some 2700) flow && fle flow (some 4275),
   flt (some 4275) flow && fle flow (some 6200),
   flt (some 6200) flow]

/-- The status literal assigned by the i-th branch of the chain. -/
def band_status (i : Fin 8) : Status :=
  match i with
  | 0 => ⟨"#FF0000", "Extremely Low- Salmon Endangered", true, 0, 62.5⟩
  | 1 => ⟨"#FFBF00", "Critically Low- Withdrawals Reduced", false, 62.5, 120⟩
  | 2 => ⟨"#FFFF00", "Low Flow - Conserve", false, 120, 238⟩
  | 3 => ⟨"#0099FF", "Adequate Flow", false, 238, 582⟩
  | 4 => ⟨"#800080", "High Flow", false, 582, 2700⟩
  | 5 => ⟨"#FFBF00", "Flood Alert", false, 2700, 4275⟩
  | 6 => ⟨"#FF0000", "Minor to Moderate Flood -Take Precautions", false, 4275, 6200⟩
  | 7 => ⟨"#8B0000", "Extreme Flooding – Evacuation May Be Necessary", true, 6200, 99999⟩

/-- The fixed display segment table `category_defs` from `generate_html`. -/
def category_defs : List (ℚ × ℚ × String) :=
  [(0, 62.5, "#FF0000"), (62.5, 120, "#FFBF00"), (120, 238, "#FFFF00"),
   (238, 582, "#0099FF"), (582, 2700, "#800080"), (2700, 4275, "#FFBF00"),
   (4275, 6200, "#FF0000"), (6200, 7000, "#8B0000")]

/-- `total_scale = 7000` from `generate_html`. -/
def total_scale : ℚ := 7000

/-- The per-segment widths `(e-s)/total_scale*100` rendered into
`bar_html` by `generate_html`. -/
def segment_widths : List ℚ :=
  category_defs.map fun sec => (sec.2.1 - sec.1) / total_scale * 100

/-- `top_marker = min((flow / total_scale) * 100, 100)`. -/
def top_marker (flow : ℚ) : ℚ :=
  min (flow / total_scale * 100) 100

/-- `range_span = max(1, status['range_max'] - status['range_min'])`. -/
def range_span (status : Status) : ℚ :=
  max 1 (status.range_max - status.range_min)

/-- `btm_marker = max(0, min(((flow - range_min) / range_span) * 100, 100))`. -/
def btm_marker (flow : ℚ) (status : Status) : ℚ :=
  max 0 (min ((flow - status.range_min) / range_span status * 100) 100)

/-- `range_max_lbl = "9999+" if status['range_max'] > 90000 else
f"{status['range_max']}"`. -/
def range_max_lbl (status : Status) : String :=
  if status.range_max > 90000 then "9999+" else toString status.range_max

/-- Numeric reading of an upper-bound label, used to state the spec's
claim that the label's value is at least 10000: a non-empty all-digit
string denotes the usual decimal number, anything else has no value. -/
def lblValue (s : String) : Option ℕ :=
  if s.data ≠ [] ∧ s.data.all (fun c => c.isDigit) then
    some (s.data.foldl (fun n c => 10 * n + (c.toNat - 48)) 0)
  else none

/-- Modelled from the spec (this logic is absent from the source): the
display upper bound `max(7000, flow × 1.1)` that §4.2 says replaces the
sentinel `range_max` as the zoomed span's ceiling for the top band. -/
def display_upper_spec (flow : ℚ) : ℚ :=
  max 7000 (flow * 1.1)

/-- Modelled from the spec (this logic is absent from the source): the
zoomed marker computed against `display_upper_spec` instead of the
sentinel, per §4.2. -/
def btm_marker_spec (flow : ℚ) (status : Status) : ℚ :=
  max 0 (min ((flow - status.range_min) / (display_upper_spec flow - status.range_min) * 100) 100)

/-- Evaluation of the conditional chain when the flow lies in the first
band `[0, 62.5]`: only the first guard is true and the first status
literal is returned. -/
theorem chain_eval_band0 (q : ℚ) (h0 : 0 ≤ q) (h1 : q ≤ 62.5) :
    band_conds (some q) = [true, false, false, false, false, false, false, false] ∧
    get_flow_status (some q) = band_status 0 := by
  have d0 : decide ((0:ℚ) ≤ q) = true := decide_eq_true h0
  have u0 : decide (q ≤ (62.5:ℚ)) = true := decide_eq_true h1
  have l1 : decide ((62.5:ℚ) < q) = false := decide_eq_false (by linarith)
  have l2 : decide ((120:ℚ) < q) = false := decide_eq_false (by linarith)
  have l3 : decide ((238:ℚ) < q) = false := decide_eq_false (by linarith)
  have l4 : decide ((582:ℚ) < q) = false := decide_eq_false (by linarith)
  have l5 : decide ((2700:ℚ) < q) = false := decide_eq_false (by linarith)
  have l6 : decide ((4275:ℚ) < q) = false := decide_eq_false (by linarith)
  have l7 : decide ((6200:ℚ) < q) = false := decide_eq_false (by linarith)
  constructor
  · simp only [band_conds, fle, flt, d0, u0, l1, l2, l3, l4, l5, l6, l7,
      Bool.and_self, Bool.and_false, Bool.false_and, Bool.true_and]
  · simp only [get_flow_status, fle, flt, d0, u0, l1, l2, l3, l4, l5, l6, l7,
      Bool.and_self, Bool.and_false, Bool.false_and, Bool.true_and]
    rfl

/-- Evaluation of the conditional chain on the band `(62.5, 120]`. -/
theorem chain_eval_band1 (q : ℚ) (hlo : 62.5 < q) (hhi : q ≤ 120) :
    band_conds (some q) = [false, true, false, false, false, false, false, false] ∧
    get_flow_status (some q) = band_status 1 := by
  have u0 : decide (q ≤ (62.5:ℚ)) = false := decide_eq_false (by linarith)
  have l1 : decide ((62.5:ℚ) < q) = true := decide_eq_true hlo
  have u1 : decide (q ≤ (120:ℚ)) = true := decide_eq_true hhi
  have l2 : decide ((120:ℚ) < q) = false := decide_eq_false (by linarith)
  have l3 : decide ((238:ℚ) < q) = false := decide_eq_false (by linarith)
  have l4 : decide ((582:ℚ) < q) = false := decide_eq_false (by linarith)
  have l5 : decide ((2700:ℚ) < q) = false := decide_eq_false (by linarith)
  have l6 : decide ((4275:ℚ) < q) = false := decide_eq_false (by linarith)
  have l7 : decide ((6200:ℚ) < q) = false := decide_eq_false (by linarith)
  constructor
  · simp only [band_conds, fle, flt, u0, l1, u1, l2, l3, l4, l5, l6, l7,
      Bool.and_self, Bool.and_false, Bool.false_and, Bool.true_and]
  · simp only [get_flow_status, fle, flt, u0, l1, u1, l2, l3, l4, l5, l6, l7,
      Bool.and_self, Bool.and_false, Bool.false_and, Bool.true_and]
    rfl

/-- Evaluation of the conditional chain on the band `(120, 238]`. -/
theorem chain_eval_band2 (q : ℚ) (hlo : 120 < q) (hhi : q ≤ 238) :
    band_conds (some q) = [false, false, true, false, false, false, false, false] ∧
    get_flow_status (some q) = band_status 2 := by
  have u0 : decide (q ≤ (62.5:ℚ)) = false := decide_eq_false (by linarith)
  have u1 : decide (q ≤ (120:ℚ)) = false := decide_eq_false (by linarith)
  have l2 : decide ((120:ℚ) < q) = true := decide_eq_true hlo
  have u2 : decide (q ≤ (238:ℚ)) = true := decide_eq_true hhi
  have l3 : decide ((238:ℚ) < q) = false := decide_eq_false (by linarith)
  have l4 : decide ((582:ℚ) < q) = false := decide_eq_false (by linarith)
  have l5 : decide ((2700:ℚ) < q) = false := decide_eq_false (by linarith)
  have l6 : decide ((4275:ℚ) < q) = false := decide_eq_false (by linarith)
  have l7 : decide ((6200:ℚ) < q) = false := decide_eq_false (by linarith)
  constructor
  · simp only [band_conds, fle, flt, u0, u1, l2, u2, l3, l4, l5, l6, l7,
      Bool.and_self, Bool.and_false, Bool.false_and, Bool.true_and]
  · simp only [get_flow_status, fle, flt, u0, u1, l2, u2, l3, l4, l5, l6, l7,
      Bool.and_self, Bool.and_false, Bool.false_and, Bool.true_and]
    rfl

/-- Evaluation of the conditional chain on the band `(238, 582]`. -/
theorem chain_eval_band3 (q : ℚ) (hlo : 238 < q) (hhi : q ≤ 582) :
    band_conds (some q) = [false, false, false, true, false, false, false, false] ∧
    get_flow_status (some q) = band_status 3 := by
  have u0 : decide (q ≤ (62.5:ℚ)) = false := decide_eq_false (by linarith)
  have u1 : decide (q ≤ (120:ℚ)) = false := decide_eq_false (by linarith)
  have u2 : decide (q ≤ (238:ℚ)) = false := decide_eq_false (by linarith)
  have l3 : decide ((238:ℚ) < q) = true := decide_eq_true hlo
  have u3 : decide (q ≤ (582:ℚ)) = true := decide_eq_true hhi
  have l4 : decide ((582:ℚ) < q) = false := decide_eq_false (by linarith)
  have l5 : decide ((2700:ℚ) < q) = false := decide_eq_false (by linarith)
  have l6 : decide ((4275:ℚ) < q) = false := decide_eq_false (by linarith)
  have l7 : decide ((6200:ℚ) < q) = false := decide_eq_false (by linarith)
  constructor
  · simp only [band_conds, fle, flt, u0, u1, u2, l3, u3, l4, l5, l6, l7,
      Bool.and_self, Bool.and_false, Bool.false_and, Bool.true_and]
  · simp only [get_flow_status, fle, flt, u0, u1, u2, l3, u3, l4, l5, l6, l7,
      Bool.and_self, Bool.and_false, Bool.false_and, Bool.true_and]
    rfl

/-- Evaluation of the conditional chain on the band `(582, 2700]`. -/
theorem chain_eval_band4 (q : ℚ) (hlo : 582 < q) (hhi : q ≤ 2700) :
    band_conds (some q) = [false, false, false, false, true, false, false, false] ∧
    get_flow_status (some q) = band_status 4 := by
  have u0 : decide (q ≤ (62.5:ℚ)) = false := decide_eq_false (by linarith)
  have u1 : decide (q ≤ (120:ℚ)) = false := decide_eq_false (by linarith)
  have u2 : decide (q ≤ (238:ℚ)) = false := decide_eq_false (by linarith)
  have u3 : decide (q ≤ (582:ℚ)) = false := decide_eq_false (by linarith)
  have l4 : decide ((582:ℚ) < q) = true := decide_eq_true hlo
  have u4 : decide (q ≤ (2700:ℚ)) = true := decide_eq_true hhi
  have l5 : decide ((2700:ℚ) < q) = false := decide_eq_false (by linarith)
  have l6 : decide ((4275:ℚ) < q) = false := decide_eq_false (by linarith)
  have l7 : decide ((6200:ℚ) < q) = false := decide_eq_false (by linarith)
  constructor
  · simp only [band_conds, fle, flt, u0, u1, u2, u3, l4, u4, l5, l6, l7,
      Bool.and_self, Bool.and_false, Bool.false_and, Bool.true_and]
  · simp only [get_flow_status, fle, flt, u0, u1, u2, u3, l4, u4, l5, l6, l7,
      Bool.and_self, Bool.and_false, Bool.false_and, Bool.true_and]
    rfl

/-- Evaluation of the conditional chain on the band `(2700, 4275]`. -/
theorem chain_eval_band5 (q : ℚ) (hlo : 2700 < q) (hhi : q ≤ 4275) :
    band_conds (some q) = [false, false, false, false, false, true, false, false] ∧
    get_flow_status (some q) = band_status 5 := by
  have u0 : decide (q ≤ (62.5:ℚ)) = false := decide_eq_false (by linarith)
  have u1 : decide (q ≤ (120:ℚ)) = false := decide_eq_false (by linarith)
  have u2 : decide (q ≤ (238:ℚ)) = false := decide_eq_false (by linarith)
  have u3 : decide (q ≤ (582:ℚ)) = false := decide_eq_false (by linarith)
  have u4 : decide (q ≤ (2700:ℚ)) = false := decide_eq_false (by linarith)
  have l5 : decide ((2700:ℚ) < q) = true := decide_eq_true hlo
  have u5 : decide (q ≤ (4275:ℚ)) = true := decide_eq_true hhi
  have l6 : decide ((4275:ℚ) < q) = false := decide_eq_false (by linarith)
  have l7 : decide ((6200:ℚ) < q) = false := decide_eq_false (by linarith)
  constructor
  · simp only [band_conds, fle, flt, u0, u1, u2, u3, u4, l5, u5, l6, l7,
      Bool.and_self, Bool.and_false, Bool.false_and, Bool.true_and]
  · simp only [get_flow_status, fle, flt, u0, u1, u2, u3, u4, l5, u5, l6, l7,
      Bool.and_self, Bool.and_false, Bool.false_and, Bool.true_and]
    rfl

/-- Evaluation of the conditional chain on the band `(4275, 6200]`. -/
theorem chain_eval_band6 (q : ℚ) (hlo : 4275 < q) (hhi : q ≤ 6200) :
    band_conds (some q) = [false, false, false, false, false, false, true, false] ∧
    get_flow_status (some q) = band_status 6 := by
  have u0 : decide (q ≤ (62.5:ℚ)) = false := decide_eq_false (by linarith)
  have u1 : decide (q ≤ (120:ℚ)) = false := decide_eq_false (by linarith)
  have u2 : decide (q ≤ (238:ℚ)) = false := decide_eq_false (by linarith)
  have u3 : decide (q ≤ (582:ℚ)) = false := decide_eq_false (by linarith)
  have u4 : decide (q ≤ (2700:ℚ)) = false := decide_eq_false (by linarith)
  have u5 : decide (q ≤ (4275:ℚ)) = false := decide_eq_false (by linarith)
  have l6 : decide ((4275:ℚ) < q) = true := decide_eq_true hlo
  have u6 : decide (q ≤ (6200:ℚ)) = true := decide_eq_true hhi
  have l7 : decide ((6200:ℚ) < q) = false := decide_eq_false (by linarith)
  constructor
  · simp only [band_conds, fle, flt, u0, u1, u2, u3, u4, u5, l6, u6, l7,
      Bool.and_self, Bool.and_false, Bool.false_and, Bool.true_and]
  · simp only [get_flow_status, fle, flt, u0, u1, u2, u3, u4, u5, l6, u6, l7,
      Bool.and_self, Bool.and_false, Bool.false_and, Bool.true_and]
    rfl

/-- Evaluation of the conditional chain on the open-ended top band
`(6200, +∞)`. -/
theorem chain_eval_band7 (q : ℚ) (hlo : 6200 < q) :
    band_conds (some q) = [false, false, false, false, false, false, false, true] ∧
    get_flow_status (some q) = band_status 7 := by
  have u0 : decide (q ≤ (62.5:ℚ)) = false := decide_eq_false (by linarith)
  have u1 : decide (q ≤ (120:ℚ)) = false := decide_eq_false (by linarith)
  have u2 : decide (q ≤ (238:ℚ)) = false := decide_eq_false (by linarith)
  have u3 : decide (q ≤ (582:ℚ)) = false := decide_eq_false (by linarith)
  have u4 : decide (q ≤ (2700:ℚ)) = false := decide_eq_false (by linarith)
  have u5 : decide (q ≤ (4275:ℚ)) = false := decide_eq_false (by linarith)
  have u6 : decide (q ≤ (6200:ℚ)) = false := decide_eq_false (by linarith)
  have l7 : decide ((6200:ℚ) < q) = true := decide_eq_true hlo
  constructor
  · simp only [band_conds, fle, flt, u0, u1, u2, u3, u4, u5, u6, l7,
      Bool.and_self, Bool.and_false, Bool.false_and, Bool.true_and]
  · simp only [get_flow_status, fle, flt, u0, u1, u2, u3, u4, u5, u6, l7,
      Bool.and_self, Bool.and_false, Bool.false_and, Bool.true_and]
    rfl

/-- Evaluation of the conditional chain on a negative flow: no guard
matches and the initial fallback dictionary is returned. -/
theorem chain_eval_fallback (q : ℚ) (hq : q < 0) :
    band_conds (some q) = [false, false, false, false, false, false, false, false] ∧
    get_flow_status (some q) = unknown_status := by
  have d0 : decide ((0:ℚ) ≤ q) = false := decide_eq_false (not_le.mpr hq)
  have l1 : decide ((62.5:ℚ) < q) = false := decide_eq_false (by linarith)
  have l2 : decide ((120:ℚ) < q) = false := decide_eq_false (by linarith)
  have l3 : decide ((238:ℚ) < q) = false := decide_eq_false (by linarith)
  have l4 : decide ((582:ℚ) < q) = false := decide_eq_false (by linarith)
  have l5 : decide ((2700:ℚ) < q) = false := decide_eq_false (by linarith)
  have l6 : decide ((4275:ℚ) < q) = false := decide_eq_false (by linarith)
  have l7 : decide ((6200:ℚ) < q) = false := decide_eq_false (by linarith)
  constructor
  · simp only [band_conds, fle, flt, d0, l1, l2, l3, l4, l5, l6, l7,
      Bool.and_self, Bool.and_false, Bool.false_and, Bool.true_and]
  · simp only [get_flow_status, fle, flt, d0, l1, l2, l3, l4, l5, l6, l7,
      Bool.and_self, Bool.and_false, Bool.false_and, Bool.true_and]
    rfl

/-- Claim C1: for every real flow ≥ 0, exactly one of the eight guard
conditions of `get_flow_status` is true — the bands `[0, 62.5]`,
`(62.5, 120]`, …, `(6200, +∞)` partition `[0, +∞)` with no gaps or
overlaps — and `get_flow_status` returns precisely the status literal
of that unique matching band. -/
theorem bands_partition (q : ℚ) (hq : 0 ≤ q) :
    (band_conds (some q)).count true = 1 ∧
    ∃ i : Fin 8, (band_conds (some q)).getD i.val false = true ∧
      get_flow_status (some q) = band_status i := by
  rcases le_or_lt q 62.5 with h1 | h1
  · obtain ⟨e, hg⟩ := chain_eval_band0 q hq h1
    rw [e, hg]
    exact ⟨by decide, 0, by decide, rfl⟩
  rcases le_or_lt q 120 with h2 | h2
  · obtain ⟨e, hg⟩ := chain_eval_band1 q h1 h2
    rw [e, hg]
    exact ⟨by decide, 1, by decide, rfl⟩
  rcases le_or_lt q 238 with h3 | h3
  · obtain ⟨e, hg⟩ := chain_eval_band2 q h2 h3
    rw [e, hg]
    exact ⟨by decide, 2, by decide, rfl⟩
  rcases le_or_lt q 582 with h4 | h4
  · obtain ⟨e, hg⟩ := chain_eval_band3 q h3 h4
    rw [e, hg]
    exact ⟨by decide, 3, by decide, rfl⟩
  rcases le_or_lt q 2700 with h5 | h5
  · obtain ⟨e, hg⟩ := chain_eval_band4 q h4 h5
    rw [e, hg]
    exact ⟨by decide, 4, by decide, rfl⟩
  rcases le_or_lt q 4275 with h6 | h6
  · obtain ⟨e, hg⟩ := chain_eval_band5 q h5 h6
    rw [e, hg]
    exact ⟨by decide, 5, by decide, rfl⟩
  rcases le_or_lt q 6200 with h7 | h7
  · obtain ⟨e, hg⟩ := chain_eval_band6 q h6 h7
    rw [e, hg]
    exact ⟨by decide, 6, by decide, rfl⟩
  · obtain ⟨e, hg⟩ := chain_eval_band7 q h7
    rw [e, hg]
    exact ⟨by decide, 7, by decide, rfl⟩

/-- Claim C1 witness: at flow 30 exactly one guard is true and the
classifier returns the status of that band. -/
theorem bands_partition_witness :
    (band_conds (some 30)).count true = 1 ∧
    ∃ i : Fin 8, (band_conds (some 30)).getD i.val false = true ∧
      get_flow_status (some 30) = band_status i :=
  bands_partition 30 (by norm_num)

/-- Claim C2 counterexample: at flow 120 the chain selects the
`(62.5, 120]` branch, so the returned status is not
"Low Flow - Conserve" and its range is not `[120, 238]`. -/
theorem classify_120_not_low_flow :
    (get_flow_status (some 120)).text ≠ "Low Flow - Conserve" ∧
    (get_flow_status (some 120)).range_min ≠ 120 ∧
    (get_flow_status (some 120)).range_max ≠ 238 := by
  obtain ⟨-, hg⟩ := chain_eval_band1 120 (by norm_num) (by norm_num)
  rw [hg]
  refine ⟨by decide, ?_, ?_⟩ <;> norm_num [band_status]

/-- Claim C2 (amended): `get_flow_status 120` returns the
"Critically Low- Withdrawals Reduced" status with `range_min = 62.5`
and `range_max = 120`, since the boundary value 120 satisfies the
second guard `62.5 < flow <= 120`. -/
theorem classify_120_critically_low :
    get_flow_status (some 120) =
      ⟨"#FFBF00", "Critically Low- Withdrawals Reduced", false, 62.5, 120⟩ := by
  obtain ⟨-, hg⟩ := chain_eval_band1 120 (by norm_num) (by norm_num)
  rw [hg]
  rfl

/-- Claim C3: each boundary value 62.5, 120, 238, 582, 2700, 4275,
6200 is classified into the band whose upper bound (`range_max`) is
that very value; in particular 62.5 lands in the first band
`[0, 62.5]`. -/
theorem boundary_values_classify_to_lower_band :
    get_flow_status (some 62.5) = band_status 0 ∧
    (get_flow_status (some 62.5)).range_min = 0 ∧
    (get_flow_status (some 62.5)).range_max = 62.5 ∧
    (get_flow_status (some 120)).range_max = 120 ∧
    (get_flow_status (some 238)).range_max = 238 ∧
    (get_flow_status (some 582)).range_max = 582 ∧
    (get_flow_status (some 2700)).range_max = 2700 ∧
    (get_flow_status (some 4275)).range_max = 4275 ∧
    (get_flow_status (some 6200)).range_max = 6200 := by
  obtain ⟨-, e0⟩ := chain_eval_band0 62.5 (by norm_num) (by norm_num)
  obtain ⟨-, e1⟩ := chain_eval_band1 120 (by norm_num) (by norm_num)
  obtain ⟨-, e2⟩ := chain_eval_band2 238 (by norm_num) (by norm_num)
  obtain ⟨-, e3⟩ := chain_eval_band3 582 (by norm_num) (by norm_num)
  obtain ⟨-, e4⟩ := chain_eval_band4 2700 (by norm_num) (by norm_num)
  obtain ⟨-, e5⟩ := chain_eval_band5 4275 (by norm_num) (by norm_num)
  obtain ⟨-, e6⟩ := chain_eval_band6 6200 (by norm_num) (by norm_num)
  rw [e0, e1, e2, e3, e4, e5, e6]
  norm_num [band_status]

/-- Claim C4 counterexample: `get_flow_status (-1)` does not fail; it
returns the fallback "Unknown Flow" status as an ordinary value (the
source has no error path at all), and likewise for NaN. -/
theorem classify_negative_returns_status :
    get_flow_status (some (-1)) = unknown_status ∧
    get_flow_status none = unknown_status ∧
    (get_flow_status (some (-1))).text = "Unknown Flow" := by
  obtain ⟨-, hg⟩ := chain_eval_fallback (-1) (by norm_num)
  rw [hg]
  exact ⟨rfl, rfl, rfl⟩

/-- Claim C4 (amended): for every negative flow and for NaN the
classifier does not raise an `InvalidInput` error — the function
returns normally — and the value returned is the fallback
"Unknown Flow" status rather than any band status. -/
theorem classify_invalid_returns_fallback (q : ℚ) (hq : q < 0) :
    get_flow_status (some q) = unknown_status ∧
    get_flow_status none = unknown_status :=
  ⟨(chain_eval_fallback q hq).2, rfl⟩

/-- Claim C4 witness: the amended statement at flow -5. -/
theorem classify_invalid_returns_fallback_witness :
    get_flow_status (some (-5)) = unknown_status ∧
    get_flow_status none = unknown_status :=
  classify_invalid_returns_fallback (-5) (by norm_num)

/-- Claim C5 counterexample: at flow 10000 the renderer's zoomed-bar
ceiling is the sentinel-based `range_min + range_span = 99999`, not the
spec's display bound `max(7000, flow × 1.1) = 11000`, and the marker
value from the code differs from the marker the spec prescribes. -/
theorem sentinel_span_not_display_upper :
    (get_flow_status (some 10000)).range_min +
        range_span (get_flow_status (some 10000)) ≠ display_upper_spec 10000 ∧
    btm_marker 10000 (get_flow_status (some 10000)) ≠
      btm_marker_spec 10000 (get_flow_status (some 10000)) := by
  obtain ⟨-, hg⟩ := chain_eval_band7 10000 (by norm_num)
  rw [hg]
  constructor
  · norm_num [band_status, range_span, display_upper_spec, max_def]
  · norm_num [band_status, btm_marker, btm_marker_spec, range_span,
      display_upper_spec, max_def, min_def]

/-- Claim C5 (amended): for a top-band flow the renderer keeps the raw
sentinel `range_max = 99999`: the zoomed span is
`max(1, 99999 − 6200) = 93799` and the marker is computed (and
clamped) against it; only the label is replaced, by the fixed
above-scale string "9999+", which is never the raw sentinel text. -/
theorem top_band_uses_sentinel_span (q : ℚ) (hq : 6200 < q) :
    (get_flow_status (some q)).range_max = 99999 ∧
    range_span (get_flow_status (some q)) = 93799 ∧
    btm_marker q (get_flow_status (some q)) =
      max 0 (min ((q - 6200) / 93799 * 100) 100) ∧
    range_max_lbl (get_flow_status (some q)) = "9999+" ∧
    range_max_lbl (get_flow_status (some q)) ≠ "99999" := by
  obtain ⟨-, hg⟩ := chain_eval_band7 q hq
  rw [hg]
  have hspan : range_span (band_status 7) = 93799 := by
    norm_num [range_span, band_status, max_def]
  have hlbl : range_max_lbl (band_status 7) = "9999+" := by
    norm_num [range_max_lbl, band_status]
  refine ⟨by norm_num [band_status], hspan, ?_, hlbl, ?_⟩
  · simp only [btm_marker, hspan]
    norm_num [band_status]
  · rw [hlbl]
    decide

/-- Claim C5 witness: the amended statement at flow 10000. -/
theorem top_band_uses_sentinel_span_witness :
    (get_flow_status (some 10000)).range_max = 99999 ∧
    range_span (get_flow_status (some 10000)) = 93799 ∧
    btm_marker 10000 (get_flow_status (some 10000)) =
      max 0 (min ((10000 - 6200) / 93799 * 100) 100) ∧
    range_max_lbl (get_flow_status (some 10000)) = "9999+" ∧
    range_max_lbl (get_flow_status (some 10000)) ≠ "99999" :=
  top_band_uses_sentinel_span 10000 (by norm_num)

/-- Claim C6 counterexample: at flow 10000 the upper-bound label is the
fixed string "9999+", which is not a decimal numeral at all, so it has
no numeric value ≥ 10000. -/
theorem label_10000_has_no_numeric_value :
    range_max_lbl (get_flow_status (some 10000)) = "9999+" ∧
    ¬ ∃ n : ℕ, lblValue (range_max_lbl (get_flow_status (some 10000))) = some n ∧
        10000 ≤ n := by
  obtain ⟨-, hg⟩ := chain_eval_band7 10000 (by norm_num)
  have hl : range_max_lbl (get_flow_status (some 10000)) = "9999+" := by
    rw [hg]
    norm_num [range_max_lbl, band_status]
  refine ⟨hl, ?_⟩
  rintro ⟨n, hn, -⟩
  rw [hl] at hn
  have h9 : lblValue "9999+" = none := by decide
  rw [h9] at hn
  exact Option.noConfusion hn

/-- Claim C6 (amended): `get_flow_status 10000` is the extreme-flooding
status (text "Extreme Flooding – Evacuation May Be Necessary",
blink = true); the renderer's upper-bound label for this flow is the
above-scale string "9999+" — never the raw sentinel "99999" — and both
markers are ≤ 100. -/
theorem classify_render_10000 :
    get_flow_status (some 10000) = band_status 7 ∧
    (get_flow_status (some 10000)).text =
      "Extreme Flooding – Evacuation May Be Necessary" ∧
    (get_flow_status (some 10000)).blink = true ∧
    range_max_lbl (get_flow_status (some 10000)) = "9999+" ∧
    range_max_lbl (get_flow_status (some 10000)) ≠ "99999" ∧
    top_marker 10000 = 100 ∧
    btm_marker 10000 (get_flow_status (some 10000)) ≤ 100 := by
  obtain ⟨-, hg⟩ := chain_eval_band7 10000 (by norm_num)
  rw [hg]
  have hlbl : range_max_lbl (band_status 7) = "9999+" := by
    norm_num [range_max_lbl, band_status]
  refine ⟨rfl, by decide, by decide, hlbl, ?_, ?_, ?_⟩
  · rw [hlbl]
    decide
  · norm_num [top_marker, total_scale, min_def]
  · norm_num [btm_marker, band_status, range_span, max_def, min_def]

/-- Claim C7: for every flow ≥ 0, the total-scale marker
`min(flow/7000 × 100, 100)` and the clamped zoomed marker both lie in
`[0, 100]`, however large the flow. -/
theorem markers_within_range (q : ℚ) (hq : 0 ≤ q) :
    0 ≤ top_marker q ∧ top_marker q ≤ 100 ∧
    0 ≤ btm_marker q (get_flow_status (some q)) ∧
    btm_marker q (get_flow_status (some q)) ≤ 100 := by
  simp only [top_marker, btm_marker]
  refine ⟨le_min ?_ (by norm_num), min_le_right _ _, le_max_left _ _,
    max_le (by norm_num) (min_le_right _ _)⟩
  exact mul_nonneg (div_nonneg hq (by norm_num [total_scale])) (by norm_num)

/-- Claim C7 witness: both markers are within `[0, 100]` at flow 30. -/
theorem markers_within_range_witness :
    0 ≤ top_marker 30 ∧ top_marker 30 ≤ 100 ∧
    0 ≤ btm_marker 30 (get_flow_status (some 30)) ∧
    btm_marker 30 (get_flow_status (some 30)) ≤ 100 :=
  markers_within_range 30 (by norm_num)

/-- Claim C8: the eight display segment widths
`(upper − lower)/7000 × 100` over the fixed table with boundaries
0, 62.5, 120, 238, 582, 2700, 4275, 6200, 7000 sum to exactly 100
(the widths do not depend on the input flow at all). -/
theorem segment_widths_sum_100 : segment_widths.sum = 100 := by
  norm_num [segment_widths, category_defs, total_scale]

/-- Claim C9: for every negative or NaN flow, `get_flow_status` raises
nothing and returns the fallback status — text "Unknown Flow",
bg_color "white", blink = false, range_min = 0, range_max = 100 —
because no branch of the ordered conditional chain matches. -/
theorem no_match_yields_unknown (flow : FloatV)
    (h : flow = none ∨ ∃ q : ℚ, flow = some q ∧ q < 0) :
    get_flow_status flow = unknown_status ∧
    (get_flow_status flow).text = "Unknown Flow" ∧
    (get_flow_status flow).bg_color = "white" ∧
    (get_flow_status flow).blink = false ∧
    (get_flow_status flow).range_min = 0 ∧
    (get_flow_status flow).range_max = 100 := by
  have hg : get_flow_status flow = unknown_status := by
    rcases h with rfl | ⟨q, rfl, hq⟩
    · rfl
    · exact (chain_eval_fallback q hq).2
  rw [hg]
  exact ⟨rfl, rfl, rfl, rfl, rfl, rfl⟩

/-- Claim C9 witness: the fallback status at flow -2. -/
theorem no_match_yields_unknown_witness :
    get_flow_status (some (-2)) = unknown_status ∧
    (get_flow_status (some (-2))).text = "Unknown Flow" ∧
    (get_flow_status (some (-2))).bg_color = "white" ∧
    (get_flow_status (some (-2))).blink = false ∧
    (get_flow_status (some (-2))).range_min = 0 ∧
    (get_flow_status (some (-2))).range_max = 100 :=
  no_match_yields_unknown (some (-2)) (Or.inr ⟨-2, rfl, by norm_num⟩)

/-- Claim C10: every status `get_flow_status` can return (fallback
included) has `range_max − range_min ≥ 57.5`, so the renderer's guard
`max(1, range_max − range_min)` never alters the span and the zoomed
marker never divides by zero. -/
theorem range_span_guard_inert (flow : FloatV) :
    57.5 ≤ (get_flow_status flow).range_max - (get_flow_status flow).range_min ∧
    range_span (get_flow_status flow) =
      (get_flow_status flow).range_max - (get_flow_status flow).range_min ∧
    0 < range_span (get_flow_status flow) := by
  rcases flow with _ | q
  · have h : get_flow_status none = unknown_status := rfl
    rw [h]
    norm_num [unknown_status, range_span, max_def]
  · simp only [get_flow_status, fle, flt]
    split_ifs <;> norm_num [range_span, unknown_status, max_def]

end Dungeness
